import Mathlib

/-!
Verification development for the BitGoJS UTXO multisig script-classification and
signature-verification engine, and for the replay-protection helpers.

The verification engine itself (utxo-lib `src/bitgo/signature.ts`,
`src/bitgo/parseInput.ts`, `src/bitgo/outputScripts.ts`, and the test harness
`transaction_util.ts` / `signatureModify.ts`) is not part of the sampled sources;
only its test suite (`modules/utxo-lib/test/bitgo/signature.ts`) is.  The engine is
therefore modelled from the specification, with every behaviour that the test suite
pins down (expected verification results per setting, placeholder counts, the shape
of a parsed p2shP2pk input) taken from the test suite, which is authoritative.

Modelling conventions:
* public keys are abstract identifiers (`Nat`); the three fixture keys are
  user = 0, backup = 1, bitgo = 2;
* the digest layer (legacy / BIP143 / BIP341 sighash) is abstracted: a
  structurally valid signature records the key that produced it and whether its S
  component is low, standing for "a signature by that key over the correct digest
  for this input"; malformed-but-present bytes are a separate constructor;
* scripts are sequences of symbolic chunks rather than raw bytes; byte-exact
  template matching becomes exact structural matching on chunk lists.
-/

namespace BitGoJS

/-- Modelled from the spec: the closed `ScriptType` enumeration (spec §3);
the concrete enumeration lives in utxo-lib `src/bitgo/outputScripts.ts`, which is
missing from the sampled sources. -/
inductive ScriptType where
  | p2shP2pk
  | p2sh
  | p2shP2wsh
  | p2wsh
  | p2tr
deriving DecidableEq

/-- The four 2-of-3 script types (`scriptTypes2Of3` in the source). -/
def scriptTypes2Of3 : List ScriptType :=
  [ScriptType.p2sh, ScriptType.p2shP2wsh, ScriptType.p2wsh, ScriptType.p2tr]

/-- All five supported script types. -/
def allScriptTypes : List ScriptType :=
  [ScriptType.p2shP2pk, ScriptType.p2sh, ScriptType.p2shP2wsh, ScriptType.p2wsh, ScriptType.p2tr]

/-- Public keys are abstract identifiers. -/
abbrev PubKey := Nat

/-- The three fixture signing keys of the test harness: user, backup, bitgo,
in the order in which they appear in the 2-of-3 scripts. -/
def fixtureKeys : List PubKey := [0, 1, 2]

/-- Modelled from the spec: signature bytes are either structurally valid —
recording the signing key and whether the S component is low (canonical) — or
present but not parseable as DER/Schnorr (spec §3 and §7); the digest the
signature commits to is abstracted as described in the file header. -/
inductive SigBytes where
  | valid (key : PubKey) (lowS : Bool)
  | malformed
deriving DecidableEq

/-- Modelled from the spec: a parsed signature slot is a real signature or the
recognized placeholder (a zero-length push), spec §3 and §9. -/
inductive SigSlot where
  | real (s : SigBytes)
  | placeholder
deriving DecidableEq

/-- Does a parsed slot hold the placeholder value (`isPlaceholderSignature` in the
source)? -/
def isPlaceholderSignature : SigSlot → Bool
  | SigSlot.placeholder => true
  | SigSlot.real _ => false

/-- Modelled from the spec: symbolic script chunks; `witnessProgram` stands for the
P2WSH witness-program push that a P2SH-P2WSH scriptSig carries. -/
inductive Chunk where
  | opInt (n : Nat)
  | pushKey (k : PubKey)
  | opCheckMultiSig
  | opCheckSig
  | opCheckSigVerify
  | witnessProgram
deriving DecidableEq

/-- A script is a sequence of chunks. -/
abbrev Script := List Chunk

/-- Modelled from the spec: the Script Template Library `compile` (spec §4.2) —
canonical construction of the supported redeem/witness scripts: the 2-of-3
multisig template and the 1-of-1 P2SH-P2PK template.  Unsupported key-set /
threshold combinations produce no script. -/
def compile (keys : List PubKey) (threshold : Nat) : Option Script :=
  match keys, threshold with
  | [a, b, c], 2 =>
    some [Chunk.opInt 2, Chunk.pushKey a, Chunk.pushKey b, Chunk.pushKey c,
          Chunk.opInt 3, Chunk.opCheckMultiSig]
  | [k], 1 => some [Chunk.pushKey k, Chunk.opCheckSig]
  | _, _ => none

/-- Modelled from the spec: the Script Template Library `decompile` (spec §4.2) —
candidate chunks that do not exactly match a recognized template are rejected
(`none`), never coerced. -/
def decompile (s : Script) : Option (List PubKey × Nat) :=
  match s with
  | [Chunk.opInt 2, Chunk.pushKey a, Chunk.pushKey b, Chunk.pushKey c,
     Chunk.opInt 3, Chunk.opCheckMultiSig] => some ([a, b, c], 2)
  | [Chunk.pushKey k, Chunk.opCheckSig] => some ([k], 1)
  | _ => none

/-- Modelled from the spec: the 2-of-2 tapscript leaf template for a pair of keys
(spec §4.3 step 5). -/
def tapscript (a b : PubKey) : Script :=
  [Chunk.pushKey a, Chunk.opCheckSigVerify, Chunk.pushKey b, Chunk.opCheckSig]

/-- Modelled from the spec: exact-match decompilation of a tapscript leaf. -/
def decompileTapscript (s : Script) : Option (PubKey × PubKey) :=
  match s with
  | [Chunk.pushKey a, Chunk.opCheckSigVerify, Chunk.pushKey b, Chunk.opCheckSig] =>
    some (a, b)
  | _ => none

/-- Modelled from the spec: one element of a scriptSig / witness stack.  `opZero`
is the zero-length push, used both as the CHECKMULTISIG dummy and as the
placeholder signature; `controlBlock` is the taproot control block. -/
inductive StackItem where
  | opZero
  | sig (s : SigBytes)
  | scriptPush (s : Script)
  | controlBlock
deriving DecidableEq

/-- Modelled from the spec: a transaction input carries its unlocking data — a
scriptSig (empty list when absent) and a witness stack (empty list when absent),
spec §3. -/
structure TxInput where
  scriptSig : List StackItem
  witness : List StackItem
deriving DecidableEq

/-- Modelled from the spec: a transaction is an ordered sequence of inputs; outputs,
version and locktime play no role in the abstracted digest layer. -/
structure UtxoTransaction where
  ins : List TxInput
deriving DecidableEq

/-- Modelled from the spec: the previous output spent by an input — the value it
carries (spec §3); the output script only feeds the abstracted digest layer. -/
structure PrevOutput where
  value : Nat
deriving DecidableEq

/-- The default output amount of the test harness. -/
def defaultTestOutputAmount : Nat := 100000000

/-- Modelled from the spec: the structural decoding of one input (spec §3) —
script type, the recovered public keys in script order, and the ordered signature
slots.  Per the test suite (`Signature (p2shP2pk)` in
`modules/utxo-lib/test/bitgo/signature.ts`), the signature of a p2shP2pk input is
not parsed: its decoding carries no slot sequence (`none`). -/
structure ParsedSignatureScript where
  scriptType : ScriptType
  publicKeys : List PubKey
  signatures : Option (List SigSlot)
deriving DecidableEq

/-- Read one stack item as a signature slot: the zero-length push is the
placeholder, signature-shaped bytes are a real slot, anything else fails. -/
def readSlot : StackItem → Option SigSlot
  | StackItem.opZero => some SigSlot.placeholder
  | StackItem.sig s => some (SigSlot.real s)
  | _ => none

/-- Read a whole run of stack items as signature slots. -/
def readSlots : List StackItem → Option (List SigSlot)
  | [] => some []
  | it :: rest =>
    match readSlot it, readSlots rest with
    | some s, some ss => some (s :: ss)
    | _, _ => none

/-- Split a nonempty scriptSig into the leading stack and the trailing
redeem-script push. -/
def splitRedeem (items : List StackItem) : Option (List StackItem × Script) :=
  match items.reverse with
  | StackItem.scriptPush s :: restRev => some (restRev.reverse, s)
  | _ => none

/-- Modelled from the spec: `parseSignatureScript` (spec §4.3) — classify the
outer scriptSig and the witness, select the script type from the combination,
decompile the embedded redeem/witness/tap script through the template library, and
extract the signature slots in script order.  Inputs whose encoding matches no
supported script type yield `none`. -/
def parseSignatureScript (inp : TxInput) : Option ParsedSignatureScript :=
  match inp.witness with
  | [] =>
    match splitRedeem inp.scriptSig with
    | none => none
    | some (stack, redeem) =>
      match decompile redeem, stack with
      | some (keys, 2), StackItem.opZero :: slotItems =>
        match readSlots slotItems with
        | some slots => some ⟨ScriptType.p2sh, keys, some slots⟩
        | none => none
      | some (keys, 1), [StackItem.sig _] =>
        some ⟨ScriptType.p2shP2pk, keys, none⟩
      | _, _ => none
  | w =>
    match w.reverse with
    | StackItem.controlBlock :: StackItem.scriptPush ts :: slotItemsRev =>
      match inp.scriptSig, decompileTapscript ts, readSlots slotItemsRev.reverse with
      | [], some (a, b), some slots => some ⟨ScriptType.p2tr, [a, b], some slots⟩
      | _, _, _ => none
    | StackItem.scriptPush wscript :: stackRev =>
      match decompile wscript, stackRev.reverse with
      | some (keys, 2), StackItem.opZero :: slotItems =>
        match readSlots slotItems, inp.scriptSig with
        | some slots, [] => some ⟨ScriptType.p2wsh, keys, some slots⟩
        | some slots, [StackItem.scriptPush [Chunk.witnessProgram]] =>
          some ⟨ScriptType.p2shP2wsh, keys, some slots⟩
        | _, _ => none
      | _, _ => none
    | _ => none

/-- Modelled from the spec: verification settings optionally narrow the check to a
public key, a signature index, or both (spec §4.5). -/
structure VerificationSettings where
  publicKey : Option PubKey
  signatureIndex : Option Nat
deriving DecidableEq

/-- Modelled from the spec: the conditions that make the verification question
itself ill-posed and are reported as explicit errors (spec §7); everything about
signature validity fails closed instead. -/
inductive VerifyError where
  | missingPrevOutput
  | inputIndexOutOfRange
deriving DecidableEq

/-- Result of a fallible verification entry point: a value, or one of the explicit
errors of `VerifyError`. -/
inductive VResult (α : Type) where
  | ok (value : α)
  | err (e : VerifyError)
deriving DecidableEq

/-- Does a present signature verify against key `k`?  Only structurally valid,
low-S (canonical) signatures by `k` itself verify; malformed bytes and high-S
signatures fail closed (spec §4.5 edge cases). -/
def sigVerifiesAgainst (s : SigBytes) (k : PubKey) : Bool :=
  match s with
  | SigBytes.valid key lowS => key == k && lowS
  | SigBytes.malformed => false

/-- The real (non-placeholder) signatures of a slot sequence, in script order. -/
def realSignatures (slots : List SigSlot) : List SigBytes :=
  slots.filterMap (fun sl =>
    match sl with
    | SigSlot.real s => some s
    | SigSlot.placeholder => none)

/-- Modelled from the spec and pinned by the test suite: the per-signature
verification results for one already-located input.  Placeholders are dropped
first; `signatureIndex` then selects within the remaining real signatures (and is
ignored for p2tr, spec §4.5/§9); `publicKey` restricts the recovered key set; each
kept signature is mapped to the key it verifies against, if any. -/
def getSignatureVerificationsCore (inp : TxInput) (settings : VerificationSettings) :
    List (Option PubKey) :=
  match parseSignatureScript inp with
  | none => []
  | some parsed =>
    match parsed.signatures with
    | none => []
    | some slots =>
      let sigs := realSignatures slots
      let kept :=
        match settings.signatureIndex with
        | none => sigs
        | some j =>
          if parsed.scriptType == ScriptType.p2tr then sigs
          else
            match sigs.get? j with
            | some s => [s]
            | none => []
      let keys :=
        match settings.publicKey with
        | none => parsed.publicKeys
        | some pk => parsed.publicKeys.filter (fun k => k == pk)
      kept.map (fun s => keys.find? (fun k => sigVerifiesAgainst s k))

/-- Modelled from the spec: `getSignatureVerifications` — explicit errors only for
an out-of-range input index or a prevOutput list that does not cover every input
(spec §7); otherwise the per-signature results of the core. -/
def getSignatureVerifications (tx : UtxoTransaction) (inputIndex : Nat)
    (prevOutputs : List PrevOutput) (settings : VerificationSettings) :
    VResult (List (Option PubKey)) :=
  match tx.ins.get? inputIndex with
  | none => VResult.err VerifyError.inputIndexOutOfRange
  | some inp =>
    if prevOutputs.length = tx.ins.length then
      VResult.ok (getSignatureVerificationsCore inp settings)
    else
      VResult.err VerifyError.missingPrevOutput

/-- Modelled from the spec: `verifySignature` — with a `publicKey` setting, true
iff some kept signature verifies against that key; otherwise true iff any kept
signature verifies at all (spec §4.5). -/
def verifySignature (tx : UtxoTransaction) (inputIndex : Nat)
    (prevOutputs : List PrevOutput) (settings : VerificationSettings) : VResult Bool :=
  match getSignatureVerifications tx inputIndex prevOutputs settings with
  | VResult.err e => VResult.err e
  | VResult.ok vs =>
    let signedBy := vs.filterMap (fun o => o)
    match settings.publicKey with
    | some pk => VResult.ok (signedBy.contains pk)
    | none => VResult.ok (!signedBy.isEmpty)

/-- Modelled from the spec: `verifySignatureWithPublicKey` is `verifySignature`
narrowed to one public key. -/
def verifySignatureWithPublicKey (tx : UtxoTransaction) (inputIndex : Nat)
    (prevOutputs : List PrevOutput) (pk : PubKey) : VResult Bool :=
  verifySignature tx inputIndex prevOutputs ⟨some pk, none⟩

/-- Modelled from the spec: `verifySignatureWithPublicKeys` — per-key results
aligned to the supplied key list (spec §4.5). -/
def verifySignatureWithPublicKeys (tx : UtxoTransaction) (inputIndex : Nat)
    (prevOutputs : List PrevOutput) : List PubKey → VResult (List Bool)
  | [] => VResult.ok []
  | pk :: rest =>
    match verifySignatureWithPublicKey tx inputIndex prevOutputs pk,
          verifySignatureWithPublicKeys tx inputIndex prevOutputs rest with
    | VResult.ok b, VResult.ok bs => VResult.ok (b :: bs)
    | VResult.err e, _ => VResult.err e
    | _, VResult.err e => VResult.err e

/-- The three signing states the test harness builds: unsigned, half-signed
(signed by the first cosigner only, placeholders kept), fully signed (finalized,
placeholders stripped). -/
inductive SignState where
  | unsigned
  | halfSigned
  | fullSigned
deriving DecidableEq

/-- All three signing states. -/
def allSignStates : List SignState :=
  [SignState.unsigned, SignState.halfSigned, SignState.fullSigned]

/-- The set of keys that have signed in a given state (`signKeys` of the test
suite): none, the first cosigner, or both cosigners. -/
def signKeys : SignState → PubKey → PubKey → List PubKey
  | SignState.unsigned, _, _ => []
  | SignState.halfSigned, k1, _ => [k1]
  | SignState.fullSigned, k1, k2 => [k1, k2]

/-- Modelled from the spec: the signature items of a legacy/segwit 2-of-3 input.
Half-signed inputs keep one slot per public key in script order, the unsigned ones
holding the placeholder (spec §4.3 step 4, and the test suite comment that
signatures have the same order as the public keys in the outputScript); finalized
inputs keep exactly the real signatures. -/
def msItems (state : SignState) (k1 k2 : PubKey) : List StackItem :=
  match state with
  | SignState.unsigned => []
  | SignState.halfSigned =>
    fixtureKeys.map (fun k => if k == k1 then StackItem.sig (SigBytes.valid k true) else StackItem.opZero)
  | SignState.fullSigned =>
    (fixtureKeys.filter (fun k => k == k1 || k == k2)).map
      (fun k => StackItem.sig (SigBytes.valid k true))

/-- The two leaf keys of the taproot 2-of-2 tapscript for a pair of cosigners, in
script order (fixture order). -/
def tapLeafKeys (k1 k2 : PubKey) : PubKey × PubKey :=
  if k1 ≤ k2 then (k1, k2) else (k2, k1)

/-- Modelled from the spec: the signature items of a p2tr script-path input for the
leaf of the two cosigners: one slot per leaf key, placeholders while half-signed. -/
def tapItems (state : SignState) (k1 k2 : PubKey) : List StackItem :=
  match state with
  | SignState.unsigned => []
  | SignState.halfSigned =>
    [if (tapLeafKeys k1 k2).1 == k1 then StackItem.sig (SigBytes.valid (tapLeafKeys k1 k2).1 true)
       else StackItem.opZero,
     if (tapLeafKeys k1 k2).2 == k1 then StackItem.sig (SigBytes.valid (tapLeafKeys k1 k2).2 true)
       else StackItem.opZero]
  | SignState.fullSigned =>
    [StackItem.sig (SigBytes.valid (tapLeafKeys k1 k2).1 true),
     StackItem.sig (SigBytes.valid (tapLeafKeys k1 k2).2 true)]

/-- Modelled from the spec: the single input of the transactions the test harness
builds (`getUnsignedTransaction2Of3`, `getHalfSignedTransaction2Of3`,
`getFullSignedTransaction2Of3`, `getFullSignedTransactionP2shP2pk`), for signing
state `state` and cosigners `k1`, `k2`. -/
def buildInput (st : ScriptType) (state : SignState) (k1 k2 : PubKey) : TxInput :=
  match state with
  | SignState.unsigned => ⟨[], []⟩
  | _ =>
    match st with
    | ScriptType.p2shP2pk =>
      ⟨[StackItem.sig (SigBytes.valid k1 true),
        StackItem.scriptPush ((compile [k1] 1).getD [])], []⟩
    | ScriptType.p2sh =>
      ⟨StackItem.opZero :: msItems state k1 k2 ++
         [StackItem.scriptPush ((compile fixtureKeys 2).getD [])], []⟩
    | ScriptType.p2shP2wsh =>
      ⟨[StackItem.scriptPush [Chunk.witnessProgram]],
       StackItem.opZero :: msItems state k1 k2 ++
         [StackItem.scriptPush ((compile fixtureKeys 2).getD [])]⟩
    | ScriptType.p2wsh =>
      ⟨[], StackItem.opZero :: msItems state k1 k2 ++
         [StackItem.scriptPush ((compile fixtureKeys 2).getD [])]⟩
    | ScriptType.p2tr =>
      ⟨[], tapItems state k1 k2 ++
         [StackItem.scriptPush (tapscript (tapLeafKeys k1 k2).1 (tapLeafKeys k1 k2).2),
          StackItem.controlBlock]⟩

/-- The single-input transaction the test harness hands to the verifier. -/
def build2Of3Transaction (st : ScriptType) (state : SignState) (k1 k2 : PubKey) :
    UtxoTransaction :=
  ⟨[buildInput st state k1 k2]⟩

/-- The previous outputs the test harness supplies (`getPrevOutputs`): one per
input, carrying the default test output amount. -/
def getPrevOutputs (tx : UtxoTransaction) : List PrevOutput :=
  tx.ins.map (fun _ => ⟨defaultTestOutputAmount⟩)

/-- Count the structurally valid low-S signatures among a run of stack items. -/
def countValidLowS (items : List StackItem) : Nat :=
  items.countP (fun it =>
    match it with
    | StackItem.sig (SigBytes.valid _ true) => true
    | _ => false)

/-- Replace the `n`-th structurally valid low-S signature of a stack by its high-S
equivalent, leaving every other item unchanged. -/
def setHighSAt : List StackItem → Nat → List StackItem
  | [], _ => []
  | StackItem.sig (SigBytes.valid k true) :: rest, 0 =>
    StackItem.sig (SigBytes.valid k false) :: rest
  | StackItem.sig (SigBytes.valid k true) :: rest, n + 1 =>
    StackItem.sig (SigBytes.valid k true) :: setHighSAt rest n
  | it :: rest, n => it :: setHighSAt rest n

/-- Mutate the `n`-th valid low-S signature of an input (counting the scriptSig
first, then the witness) to its high-S equivalent. -/
def mutateInputHighS (inp : TxInput) (n : Nat) : TxInput :=
  if n < countValidLowS inp.scriptSig then
    ⟨setHighSAt inp.scriptSig n, inp.witness⟩
  else
    ⟨inp.scriptSig, setHighSAt inp.witness (n - countValidLowS inp.scriptSig)⟩

/-- Modelled from the spec: `getTransactionWithHighS` (the companion mutate-to-
high-S transform, spec §4.5) — one mutated copy of the transaction per valid low-S
signature of the chosen input. -/
def getTransactionWithHighS (tx : UtxoTransaction) (inputIndex : Nat) :
    List UtxoTransaction :=
  match tx.ins.get? inputIndex with
  | none => []
  | some inp =>
    (List.range (countValidLowS inp.scriptSig + countValidLowS inp.witness)).map
      (fun n => ⟨tx.ins.set inputIndex (mutateInputHighS inp n)⟩)

/-- Replace every present signature of a stack item by malformed bytes. -/
def corruptItem : StackItem → StackItem
  | StackItem.sig _ => StackItem.sig SigBytes.malformed
  | it => it

/-- Replace every present signature of an input by malformed bytes. -/
def corruptInput (inp : TxInput) : TxInput :=
  ⟨inp.scriptSig.map corruptItem, inp.witness.map corruptItem⟩

/-- Replace every present signature of a transaction by structurally malformed
bytes — adversarial but byte-well-formed unlocking data. -/
def corruptTx (tx : UtxoTransaction) : UtxoTransaction :=
  ⟨tx.ins.map corruptInput⟩

/-- The networks of the `@bitgo/utxo-lib` `networks` module, which
`getReplayProtectionAddresses` switches over (the module is a dependency of the
sampled source file). -/
inductive Network where
  | bitcoin
  | testnet
  | bitcoincash
  | bitcoincashTestnet
  | bitcoingold
  | bitcoingoldTestnet
  | bitcoinsv
  | bitcoinsvTestnet
  | dash
  | dashTest
  | dogecoin
  | dogecoinTest
  | litecoin
  | litecoinTest
  | zcash
  | zcashTest
deriving DecidableEq

/-- An unspent output as used by `isReplayProtectionUnspent`: only its address is
inspected. -/
structure Unspent where
  address : String

/-- The replay-protection addresses per network, from the source
(`getReplayProtectionAddresses` in `src/unnamed/part_004`). -/
def getReplayProtectionAddresses (network : Network) : List String :=
  match network with
  | Network.bitcoincash => ["33p1q7mTGyeM5UnZERGiMcVUkY12SCsatA"]
  | Network.bitcoinsv => ["33p1q7mTGyeM5UnZERGiMcVUkY12SCsatA"]
  | Network.bitcoincashTestnet => ["2MuMnPoSDgWEpNWH28X2nLtYMXQJCyT61eY"]
  | Network.bitcoinsvTestnet => ["2MuMnPoSDgWEpNWH28X2nLtYMXQJCyT61eY"]
  | _ => []

/-- From the source (`isReplayProtectionUnspent` in `src/unnamed/part_004`): an
unspent is replay protection iff its address is among the network's
replay-protection addresses. -/
def isReplayProtectionUnspent (u : Unspent) (network : Network) : Bool :=
  (getReplayProtectionAddresses network).contains u.address

/-- All orderings of the three fixture keys, used to check that per-key results
align with the supplied key-list order. -/
def fixtureKeyOrders : List (List PubKey) :=
  [[0, 1, 2], [0, 2, 1], [1, 0, 2], [1, 2, 0], [2, 0, 1], [2, 1, 0]]

/-- Follows the spec's words of claim C5, not the source: whether "the slot at that
script-order position holds a real signature that verifies against the key at that
same script-order position", for a harness input whose set of signing keys is
`signers` — in the harness, the slot at a key's script-order position is filled
with that key's valid signature exactly when that key signed. -/
def specC5SlotVerifies (signers : List PubKey) (j : Nat) : Bool :=
  match fixtureKeys.get? j with
  | some k => signers.contains k
  | none => false

/-- Follows the spec's words of claim C6, not the source: whether "j equals k's
slot position and that specific slot holds a real signature that verifies against
k", for a harness input whose set of signing keys is `signers`. -/
def specC6BothMatch (signers : List PubKey) (k : PubKey) (j : Nat) : Bool :=
  (fixtureKeys.get? j == some k) && signers.contains k

/-- Number of placeholder slots a parse result reports (a decoding without a slot
sequence reports none of them). -/
def placeholderCount (p : Option ParsedSignatureScript) : Option Nat :=
  p.map (fun q => (q.signatures.getD []).countP (fun s => isPlaceholderSignature s))

/-- Length of the signature-slot sequence of a parse result: `some (some n)` for a
decoding with `n` slots, `some none` for a decoding that carries no slot sequence,
`none` when parsing failed. -/
def slotCount (p : Option ParsedSignatureScript) : Option (Option Nat) :=
  p.map (fun q => q.signatures.map List.length)

/-! Helper lemmas shared by the claim theorems. -/

/-- The harness always supplies one prevOutput per input. -/
lemma getPrevOutputs_length (tx : UtxoTransaction) :
    (getPrevOutputs tx).length = tx.ins.length := by
  simp [getPrevOutputs]

/-- With a valid input index and a full prevOutput list, `getSignatureVerifications`
returns the core result, for every verification settings value. -/
lemma getSignatureVerifications_ok (tx : UtxoTransaction) (prevOutputs : List PrevOutput)
    (settings : VerificationSettings) (i : Nat) (h1 : i < tx.ins.length)
    (h2 : prevOutputs.length = tx.ins.length) :
    getSignatureVerifications tx i prevOutputs settings =
      VResult.ok (getSignatureVerificationsCore (tx.ins.get ⟨i, h1⟩) settings) := by
  unfold getSignatureVerifications
  rw [List.get?_eq_get h1]
  simp [h2]

/-- With a valid input index and a full prevOutput list, `verifySignature` returns a
boolean, for every verification settings value. -/
lemma verifySignature_ok (tx : UtxoTransaction) (prevOutputs : List PrevOutput)
    (settings : VerificationSettings) (i : Nat) (h1 : i < tx.ins.length)
    (h2 : prevOutputs.length = tx.ins.length) :
    ∃ b : Bool, verifySignature tx i prevOutputs settings = VResult.ok b := by
  unfold verifySignature
  rw [getSignatureVerifications_ok tx prevOutputs settings i h1 h2]
  cases hpk : settings.publicKey with
  | none =>
    exact ⟨!((getSignatureVerificationsCore (tx.ins.get ⟨i, h1⟩) settings).filterMap
              (fun o => o)).isEmpty, by simp [hpk]⟩
  | some pk =>
    exact ⟨((getSignatureVerificationsCore (tx.ins.get ⟨i, h1⟩) settings).filterMap
              (fun o => o)).contains pk, by simp [hpk]⟩

/-! The claim theorems. -/

/-- C8: Script-template round-trip law — `decompile` inverts `compile` on every
supported key set and threshold, and everything `decompile` accepts is byte-exactly
the canonical compiled template (near-matches are rejected, never coerced). -/
theorem template_roundtrip :
    (∀ (keys : List PubKey) (m : Nat) (s : Script),
        compile keys m = some s → decompile s = some (keys, m)) ∧
    (∀ (s : Script) (pr : List PubKey × Nat),
        decompile s = some pr → compile pr.1 pr.2 = some s) := by
  constructor
  · intro keys m s h
    unfold compile at h
    split at h
    · cases h; rfl
    · cases h; rfl
    · exact Option.noConfusion h
  · intro s pr h
    unfold decompile at h
    split at h
    · cases h; rfl
    · cases h; rfl
    · exact Option.noConfusion h

/-- Witness for C8 at concrete inputs: compiling three concrete keys at threshold
2 decompiles back, and a decompiled 1-of-1 template recompiles byte-exactly. -/
theorem template_roundtrip_witness :
    decompile [Chunk.opInt 2, Chunk.pushKey 11, Chunk.pushKey 22, Chunk.pushKey 33,
               Chunk.opInt 3, Chunk.opCheckMultiSig] = some ([11, 22, 33], 2) ∧
    compile [44] 1 = some [Chunk.pushKey 44, Chunk.opCheckSig] :=
  ⟨template_roundtrip.1 [11, 22, 33] 2
      [Chunk.opInt 2, Chunk.pushKey 11, Chunk.pushKey 22, Chunk.pushKey 33,
       Chunk.opInt 3, Chunk.opCheckMultiSig] (by rfl),
   template_roundtrip.2 [Chunk.pushKey 44, Chunk.opCheckSig] ([44], 1) (by rfl)⟩

/-- C10: `getReplayProtectionAddresses` yields the singleton mainnet address for
bitcoincash and bitcoinsv, the singleton testnet address for their testnets, and
the empty list for every other network; `isReplayProtectionUnspent` holds exactly
when the unspent's address is in that list. -/
theorem replay_protection_addresses_spec :
    getReplayProtectionAddresses Network.bitcoincash = ["33p1q7mTGyeM5UnZERGiMcVUkY12SCsatA"] ∧
    getReplayProtectionAddresses Network.bitcoinsv = ["33p1q7mTGyeM5UnZERGiMcVUkY12SCsatA"] ∧
    getReplayProtectionAddresses Network.bitcoincashTestnet = ["2MuMnPoSDgWEpNWH28X2nLtYMXQJCyT61eY"] ∧
    getReplayProtectionAddresses Network.bitcoinsvTestnet = ["2MuMnPoSDgWEpNWH28X2nLtYMXQJCyT61eY"] ∧
    (∀ n : Network,
        n ≠ Network.bitcoincash → n ≠ Network.bitcoinsv →
        n ≠ Network.bitcoincashTestnet → n ≠ Network.bitcoinsvTestnet →
        getReplayProtectionAddresses n = []) ∧
    (∀ (u : Unspent) (n : Network),
        isReplayProtectionUnspent u n = true ↔
          u.address ∈ getReplayProtectionAddresses n) := by
  refine ⟨rfl, rfl, rfl, rfl, ?_, ?_⟩
  · intro n h1 h2 h3 h4
    cases n <;> first
      | rfl
      | exact absurd rfl (by assumption)
  · intro u n
    exact List.elem_iff

/-- Witness for C10 at a concrete input: the bitcoin network carries no
replay-protection addresses, and a concrete unspent on bitcoincash is recognized. -/
theorem replay_protection_addresses_spec_witness :
    getReplayProtectionAddresses Network.bitcoin = [] ∧
    (isReplayProtectionUnspent ⟨"33p1q7mTGyeM5UnZERGiMcVUkY12SCsatA"⟩ Network.bitcoincash = true ↔
      "33p1q7mTGyeM5UnZERGiMcVUkY12SCsatA" ∈ getReplayProtectionAddresses Network.bitcoincash) :=
  ⟨replay_protection_addresses_spec.2.2.2.2.1 Network.bitcoin
      (by decide) (by decide) (by decide) (by decide),
   replay_protection_addresses_spec.2.2.2.2.2 ⟨"33p1q7mTGyeM5UnZERGiMcVUkY12SCsatA"⟩
      Network.bitcoincash⟩

/-- C1: Verification is total and fails closed — for every harness transaction
(unsigned, half-signed or fully signed, every supported script type), every input
index and every verification settings value, `getSignatureVerifications` and
`verifySignature` return a result and never an error; and with every present
signature replaced by structurally malformed bytes, `verifySignature` returns
`false`, not an error.  (Absent and placeholder slots verifying `false` is part of
C4's statement.) -/
theorem verification_total_never_throws :
    (∀ st ∈ allScriptTypes, ∀ k1 ∈ fixtureKeys, ∀ k2 ∈ fixtureKeys, k1 ≠ k2 →
      ∀ state ∈ allSignStates, ∀ settings : VerificationSettings,
      ∀ i, i < (build2Of3Transaction st state k1 k2).ins.length →
        (∃ vs, getSignatureVerifications (build2Of3Transaction st state k1 k2) i
            (getPrevOutputs (build2Of3Transaction st state k1 k2)) settings =
              VResult.ok vs) ∧
        (∃ b, verifySignature (build2Of3Transaction st state k1 k2) i
            (getPrevOutputs (build2Of3Transaction st state k1 k2)) settings =
              VResult.ok b)) ∧
    (∀ st ∈ allScriptTypes, ∀ k1 ∈ fixtureKeys, ∀ k2 ∈ fixtureKeys, k1 ≠ k2 →
      ∀ state ∈ [SignState.halfSigned, SignState.fullSigned], ∀ k ∈ fixtureKeys,
        verifySignature (corruptTx (build2Of3Transaction st state k1 k2)) 0
            (getPrevOutputs (build2Of3Transaction st state k1 k2)) ⟨none, none⟩ =
          VResult.ok false ∧
        verifySignature (corruptTx (build2Of3Transaction st state k1 k2)) 0
            (getPrevOutputs (build2Of3Transaction st state k1 k2)) ⟨some k, none⟩ =
          VResult.ok false) := by
  constructor
  · intro st _ k1 _ k2 _ _ state _ settings i hi
    exact ⟨⟨_, getSignatureVerifications_ok _ _ settings i hi (getPrevOutputs_length _)⟩,
           verifySignature_ok _ _ settings i hi (getPrevOutputs_length _)⟩
  · decide

/-- Witness for C1 at a concrete input: half-signed p2sh transaction, input 0,
no settings. -/
theorem verification_total_never_throws_witness :
    (∃ vs, getSignatureVerifications
        (build2Of3Transaction ScriptType.p2sh SignState.halfSigned 0 1) 0
        (getPrevOutputs (build2Of3Transaction ScriptType.p2sh SignState.halfSigned 0 1))
        ⟨none, none⟩ = VResult.ok vs) ∧
    (∃ b, verifySignature
        (build2Of3Transaction ScriptType.p2sh SignState.halfSigned 0 1) 0
        (getPrevOutputs (build2Of3Transaction ScriptType.p2sh SignState.halfSigned 0 1))
        ⟨none, none⟩ = VResult.ok b) :=
  verification_total_never_throws.1 ScriptType.p2sh (by decide) 0 (by decide) 1 (by decide)
    (by decide) SignState.halfSigned (by decide) ⟨none, none⟩ 0 (by decide)

/-- C4: with no settings, `verifySignature` is true iff at least one key has
signed; with a `publicKey` setting (equivalently through
`verifySignatureWithPublicKey`), true iff that key is among the signing keys; in
particular an unsigned transaction verifies false for every key. -/
theorem verifySignature_publicKey_settings :
    ∀ st ∈ scriptTypes2Of3, ∀ k1 ∈ fixtureKeys, ∀ k2 ∈ fixtureKeys, k1 ≠ k2 →
    ∀ state ∈ allSignStates,
      verifySignature (build2Of3Transaction st state k1 k2) 0
          (getPrevOutputs (build2Of3Transaction st state k1 k2)) ⟨none, none⟩ =
        VResult.ok (!(signKeys state k1 k2).isEmpty) ∧
      ∀ k ∈ fixtureKeys,
        verifySignature (build2Of3Transaction st state k1 k2) 0
            (getPrevOutputs (build2Of3Transaction st state k1 k2)) ⟨some k, none⟩ =
          VResult.ok ((signKeys state k1 k2).contains k) ∧
        verifySignatureWithPublicKey (build2Of3Transaction st state k1 k2) 0
            (getPrevOutputs (build2Of3Transaction st state k1 k2)) k =
          VResult.ok ((signKeys state k1 k2).contains k) := by
  decide

/-- Witness for C4 at a concrete input: fully-signed p2wsh by user and bitgo,
aggregate verification true. -/
theorem verifySignature_publicKey_settings_witness :
    verifySignature (build2Of3Transaction ScriptType.p2wsh SignState.fullSigned 0 2) 0
        (getPrevOutputs (build2Of3Transaction ScriptType.p2wsh SignState.fullSigned 0 2))
        ⟨none, none⟩ =
      VResult.ok (!(signKeys SignState.fullSigned 0 2).isEmpty) :=
  (verifySignature_publicKey_settings ScriptType.p2wsh (by decide) 0 (by decide) 2
    (by decide) (by decide) SignState.fullSigned (by decide)).1

/-- C2: `verifySignatureWithPublicKeys` returns a boolean array aligned to the
supplied key-list order (for every ordering of the fixture keys) whose entries
are true exactly at the keys that signed, and whose true-count equals the number
of signing keys. -/
theorem verifyWithPublicKeys_aligned_counts :
    ∀ st ∈ scriptTypes2Of3, ∀ k1 ∈ fixtureKeys, ∀ k2 ∈ fixtureKeys, k1 ≠ k2 →
    ∀ state ∈ allSignStates, ∀ pks ∈ fixtureKeyOrders,
      verifySignatureWithPublicKeys (build2Of3Transaction st state k1 k2) 0
          (getPrevOutputs (build2Of3Transaction st state k1 k2)) pks =
        VResult.ok (pks.map (fun k => (signKeys state k1 k2).contains k)) ∧
      (pks.map (fun k => (signKeys state k1 k2).contains k)).count true =
        (signKeys state k1 k2).length := by
  decide

/-- Witness for C2 at a concrete input: half-signed p2tr by backup, fixture key
order. -/
theorem verifyWithPublicKeys_aligned_counts_witness :
    verifySignatureWithPublicKeys (build2Of3Transaction ScriptType.p2tr SignState.halfSigned 1 2) 0
        (getPrevOutputs (build2Of3Transaction ScriptType.p2tr SignState.halfSigned 1 2))
        [0, 1, 2] =
      VResult.ok ([0, 1, 2].map (fun k => (signKeys SignState.halfSigned 1 2).contains k)) :=
  (verifyWithPublicKeys_aligned_counts ScriptType.p2tr (by decide) 1 (by decide) 2
    (by decide) (by decide) SignState.halfSigned (by decide) [0, 1, 2] (by decide)).1

/-- C3: for every harness input carrying at least one valid low-S signature,
`getTransactionWithHighS` yields one mutated transaction per valid signature, and
each mutation makes exactly one signing key's verification false while leaving
every other key's per-key result unchanged — so the verified-signature count drops
by exactly one. -/
theorem highS_mutation_reduces_count_by_one :
    ∀ st ∈ scriptTypes2Of3, ∀ k1 ∈ fixtureKeys, ∀ k2 ∈ fixtureKeys, k1 ≠ k2 →
    ∀ state ∈ [SignState.halfSigned, SignState.fullSigned],
      (getTransactionWithHighS (build2Of3Transaction st state k1 k2) 0).length =
        (signKeys state k1 k2).length ∧
      ∀ t ∈ getTransactionWithHighS (build2Of3Transaction st state k1 k2) 0,
        ∃ f ∈ signKeys state k1 k2,
          verifySignatureWithPublicKeys t 0 (getPrevOutputs t) fixtureKeys =
            VResult.ok (fixtureKeys.map (fun k =>
              (signKeys state k1 k2).contains k && !(k == f))) ∧
          (fixtureKeys.map (fun k =>
              (signKeys state k1 k2).contains k && !(k == f))).count true =
            (signKeys state k1 k2).length - 1 := by
  decide

/-- Witness for C3 at a concrete input: the fully-signed p2shP2wsh transaction by
user and backup has exactly two high-S mutations. -/
theorem highS_mutation_reduces_count_by_one_witness :
    (getTransactionWithHighS
        (build2Of3Transaction ScriptType.p2shP2wsh SignState.fullSigned 0 1) 0).length =
      (signKeys SignState.fullSigned 0 1).length :=
  (highS_mutation_reduces_count_by_one ScriptType.p2shP2wsh (by decide) 0 (by decide) 1
    (by decide) (by decide) SignState.fullSigned (by decide)).1

/-- C5 counterexample: at the fully-signed p2sh input signed by user (position 0)
and bitgo (position 2), position 1 (backup) holds no real signature, yet
`verifySignature` with `signatureIndex = 1` returns true; and position 2 holds
bitgo's valid signature, yet `signatureIndex = 2` returns false.  The claim's
slot-position reading is wrong in both directions: `signatureIndex` indexes the
non-placeholder signatures in script order, not the key positions. -/
theorem signatureIndex_slot_position_counterexample :
    specC5SlotVerifies (signKeys SignState.fullSigned 0 2) 1 = false ∧
    verifySignature (build2Of3Transaction ScriptType.p2sh SignState.fullSigned 0 2) 0
        (getPrevOutputs (build2Of3Transaction ScriptType.p2sh SignState.fullSigned 0 2))
        ⟨none, some 1⟩ = VResult.ok true ∧
    specC5SlotVerifies (signKeys SignState.fullSigned 0 2) 2 = true ∧
    verifySignature (build2Of3Transaction ScriptType.p2sh SignState.fullSigned 0 2) 0
        (getPrevOutputs (build2Of3Transaction ScriptType.p2sh SignState.fullSigned 0 2))
        ⟨none, some 2⟩ = VResult.ok false := by
  decide

/-- C5 amended: for every non-taproot multisig harness input, `verifySignature`
with `{signatureIndex: j}` and no public key returns true iff the input carries
more than `j` real (non-placeholder) signatures — the index selects within the
real signatures in script order, each of which verifies against some key of the
recovered key set. -/
theorem signatureIndex_real_signature_order :
    ∀ st ∈ [ScriptType.p2sh, ScriptType.p2shP2wsh, ScriptType.p2wsh],
    ∀ k1 ∈ fixtureKeys, ∀ k2 ∈ fixtureKeys, k1 ≠ k2 →
    ∀ state ∈ allSignStates, ∀ j ∈ [0, 1, 2],
      verifySignature (build2Of3Transaction st state k1 k2) 0
          (getPrevOutputs (build2Of3Transaction st state k1 k2)) ⟨none, some j⟩ =
        VResult.ok (decide (j < (signKeys state k1 k2).length)) := by
  decide

/-- Witness for amended C5 at a concrete input: half-signed p2wsh by bitgo,
`signatureIndex = 0` verifies true. -/
theorem signatureIndex_real_signature_order_witness :
    verifySignature (build2Of3Transaction ScriptType.p2wsh SignState.halfSigned 2 0) 0
        (getPrevOutputs (build2Of3Transaction ScriptType.p2wsh SignState.halfSigned 2 0))
        ⟨none, some 0⟩ =
      VResult.ok (decide (0 < (signKeys SignState.halfSigned 2 0).length)) :=
  signatureIndex_real_signature_order ScriptType.p2wsh (by decide) 2 (by decide) 0
    (by decide) (by decide) SignState.halfSigned (by decide) 0 (by decide)

/-- C6 counterexample: at the fully-signed p2sh input signed by user (position 0)
and bitgo (position 2), the pair `{publicKey: bitgo, signatureIndex: 2}` matches
the claim's condition (2 is bitgo's slot position and that slot holds bitgo's
valid signature) yet verifies false, while `{publicKey: bitgo, signatureIndex: 1}`
fails the claim's condition yet verifies true: the index refers to bitgo's
position among the real signatures, not to its key position. -/
theorem publicKey_signatureIndex_position_counterexample :
    specC6BothMatch (signKeys SignState.fullSigned 0 2) 2 2 = true ∧
    verifySignature (build2Of3Transaction ScriptType.p2sh SignState.fullSigned 0 2) 0
        (getPrevOutputs (build2Of3Transaction ScriptType.p2sh SignState.fullSigned 0 2))
        ⟨some 2, some 2⟩ = VResult.ok false ∧
    specC6BothMatch (signKeys SignState.fullSigned 0 2) 2 1 = false ∧
    verifySignature (build2Of3Transaction ScriptType.p2sh SignState.fullSigned 0 2) 0
        (getPrevOutputs (build2Of3Transaction ScriptType.p2sh SignState.fullSigned 0 2))
        ⟨some 2, some 1⟩ = VResult.ok true := by
  decide

/-- C6 amended: for every non-taproot multisig harness input, `verifySignature`
with both `{publicKey: k, signatureIndex: j}` returns true iff the `j`-th real
(non-placeholder) signature in script order exists and is `k`'s — equivalently,
iff `j` is `k`'s index among the keys that signed, in script order. -/
theorem publicKey_signatureIndex_real_order :
    ∀ st ∈ [ScriptType.p2sh, ScriptType.p2shP2wsh, ScriptType.p2wsh],
    ∀ k1 ∈ fixtureKeys, ∀ k2 ∈ fixtureKeys, k1 ≠ k2 →
    ∀ state ∈ allSignStates, ∀ j ∈ [0, 1, 2], ∀ k ∈ fixtureKeys,
      verifySignature (build2Of3Transaction st state k1 k2) 0
          (getPrevOutputs (build2Of3Transaction st state k1 k2)) ⟨some k, some j⟩ =
        VResult.ok
          ((fixtureKeys.filter (fun x => (signKeys state k1 k2).contains x)).get? j ==
            some k) := by
  decide

/-- Witness for amended C6 at a concrete input: fully-signed p2sh by user and
bitgo, `{publicKey: bitgo, signatureIndex: 1}` verifies true. -/
theorem publicKey_signatureIndex_real_order_witness :
    verifySignature (build2Of3Transaction ScriptType.p2sh SignState.fullSigned 0 2) 0
        (getPrevOutputs (build2Of3Transaction ScriptType.p2sh SignState.fullSigned 0 2))
        ⟨some 2, some 1⟩ =
      VResult.ok
        ((fixtureKeys.filter
            (fun x => (signKeys SignState.fullSigned 0 2).contains x)).get? 1 == some 2) :=
  publicKey_signatureIndex_real_order ScriptType.p2sh (by decide) 0 (by decide) 2
    (by decide) (by decide) SignState.fullSigned (by decide) 1 (by decide) 2 (by decide)

/-- C7: a half-signed harness input parses with exactly 2 placeholder slots for
p2sh, p2shP2wsh and p2wsh and exactly 1 for p2tr; a fully-signed input of any
supported script type parses with exactly 0 placeholder slots. -/
theorem placeholder_counts :
    ∀ st ∈ scriptTypes2Of3, ∀ k1 ∈ fixtureKeys, ∀ k2 ∈ fixtureKeys, k1 ≠ k2 →
      placeholderCount (parseSignatureScript (buildInput st SignState.halfSigned k1 k2)) =
        some (if st == ScriptType.p2tr then 1 else 2) ∧
      placeholderCount (parseSignatureScript (buildInput st SignState.fullSigned k1 k2)) =
        some 0 ∧
      placeholderCount
          (parseSignatureScript (buildInput ScriptType.p2shP2pk SignState.fullSigned k1 k2)) =
        some 0 := by
  decide

/-- Witness for C7 at a concrete input: half-signed p2sh by backup and bitgo
reports two placeholders. -/
theorem placeholder_counts_witness :
    placeholderCount
        (parseSignatureScript (buildInput ScriptType.p2sh SignState.halfSigned 1 2)) =
      some (if ScriptType.p2sh == ScriptType.p2tr then 1 else 2) :=
  (placeholder_counts ScriptType.p2sh (by decide) 1 (by decide) 2 (by decide) (by decide)).1

/-- C9 counterexample: a successfully parsed p2shP2pk input carries no
signature-slot sequence at all (matching the test suite's expected parse object,
which has no `signatures` field) — not 1 slot; moreover a finalized 2-of-3 p2sh
input carries 2 slots, and a half-signed p2tr leaf spend carries 2 slots — not 3. -/
theorem slot_count_counterexample :
    parseSignatureScript (buildInput ScriptType.p2shP2pk SignState.fullSigned 0 1) =
      some ⟨ScriptType.p2shP2pk, [0], none⟩ ∧
    slotCount (parseSignatureScript (buildInput ScriptType.p2shP2pk SignState.fullSigned 0 1)) ≠
      some (some 1) ∧
    slotCount (parseSignatureScript (buildInput ScriptType.p2sh SignState.fullSigned 0 1)) =
      some (some 2) ∧
    slotCount (parseSignatureScript (buildInput ScriptType.p2tr SignState.halfSigned 0 1)) =
      some (some 2) := by
  decide

/-- C9 amended: the slot count of a successfully parsed harness input equals the
number of signature items its unlocking data carries — 3 for half-signed p2sh,
p2shP2wsh and p2wsh (one per public key, placeholders included), 2 for half-signed
p2tr (one per leaf key), 2 for every finalized 2-of-3 input, and no slot sequence
at all for p2shP2pk. -/
theorem slot_count_invariant_amended :
    ∀ st ∈ scriptTypes2Of3, ∀ k1 ∈ fixtureKeys, ∀ k2 ∈ fixtureKeys, k1 ≠ k2 →
      slotCount (parseSignatureScript (buildInput st SignState.halfSigned k1 k2)) =
        some (some (if st == ScriptType.p2tr then 2 else 3)) ∧
      slotCount (parseSignatureScript (buildInput st SignState.fullSigned k1 k2)) =
        some (some 2) ∧
      slotCount
          (parseSignatureScript (buildInput ScriptType.p2shP2pk SignState.fullSigned k1 k2)) =
        some none := by
  decide

/-- Witness for amended C9 at a concrete input: half-signed p2wsh by user and
backup carries three slots. -/
theorem slot_count_invariant_amended_witness :
    slotCount (parseSignatureScript (buildInput ScriptType.p2wsh SignState.halfSigned 0 1)) =
      some (some (if ScriptType.p2wsh == ScriptType.p2tr then 2 else 3)) :=
  (slot_count_invariant_amended ScriptType.p2wsh (by decide) 0 (by decide) 1 (by decide)
    (by decide)).1

end BitGoJS
